import Mathlib

/-!
Shallow embedding of the credit-quota and auth error-normalization core of
the fresherhub repository (src/src/hooks/useAuth.ts and
src/src/components/CreditSystem.tsx).

Conventions of the embedding:
* Timestamps are `Int` milliseconds since the epoch (JS `Date.getTime()`);
  `setHours(getHours() + 24)` is modelled as adding `86400000` ms.
* A JS value that may be absent or non-numeric is an `Option`; the source's
  coercions (`err?.message || ""`, `Number(err?.status) || 0`,
  `data.credits || 5`) are modelled explicitly, including their behaviour on
  falsy-but-present values such as `0` and `""`.
* An async provider call either resolves to a value or rejects (throws);
  this is the `Attempt` type.  The JS regex character class `[^\s@]` is
  modelled over ASCII whitespace.
-/

namespace FresherHub

/-- The error taxonomy of `AuthErrorCode` in CreditSystem.tsx. -/
inductive AuthErrorCode
  | INVALID_CREDENTIALS
  | EMAIL_ALREADY_REGISTERED
  | EMAIL_NOT_CONFIRMED
  | RATE_LIMITED
  | NETWORK
  | LINK_EXPIRED_OR_INVALID
  | WEAK_PASSWORD
  | INVALID_EMAIL
  | UNKNOWN
deriving DecidableEq

/-- A raw provider error: optional free-text `message`, optional numeric
`status`.  `none` for `status` covers both a missing and a non-numeric
field (both of which `Number(err?.status) || 0` coerces to 0). -/
structure RawErr where
  message : Option String
  status : Option Int
deriving DecidableEq

/-- JS `\s` over the ASCII range (space, tab, newline, CR, VT, FF). -/
def jsWhitespace (c : Char) : Bool :=
  c == ' ' || c == '\t' || c == '\n' || c == '\r' || c == '\x0b' || c == '\x0c'

/-- The character class `[^\s@]` of the email regex. -/
def okChar (c : Char) : Bool :=
  !(jsWhitespace c || c == '@')

/-- Backtracking matcher for the tail `[^\s@]*\.[^\s@]+$` of the domain,
entered after at least one domain character has been consumed. -/
def domAux : List Char → Bool
  | [] => false
  | c :: rest => (c == '.' && !rest.isEmpty && rest.all okChar) || (okChar c && domAux rest)

/-- Matcher for `[^\s@]+\.[^\s@]+$` (the domain part of the regex). -/
def domOk : List Char → Bool
  | [] => false
  | c :: rest => okChar c && domAux rest

/-- Backtracking matcher for the tail `[^\s@]*@[^\s@]+\.[^\s@]+$`, entered
after at least one local-part character has been consumed. -/
def emailAux : List Char → Bool
  | [] => false
  | c :: rest => (c == '@' && domOk rest) || (okChar c && emailAux rest)

/-- `isValidEmail` of CreditSystem.tsx: the anchored JS regex
`^[^\s@]+@[^\s@]+\.[^\s@]+$` applied to the email string. -/
def isValidEmail (email : String) : Bool :=
  match email.data with
  | [] => false
  | c :: rest => okChar c && emailAux rest

/-- `isStrongPassword` of CreditSystem.tsx: length at least 8. -/
def isStrongPassword (pwd : String) : Bool :=
  decide (8 ≤ pwd.length)

/-- `p.isPrefixOfB s`: `p` is a prefix of `s` (Boolean, on character lists). -/
def isPrefixOfB : List Char → List Char → Bool
  | [], _ => true
  | _ :: _, [] => false
  | a :: as, b :: bs => a == b && isPrefixOfB as bs

/-- `containsList p s`: `p` occurs as a contiguous sublist of `s`. -/
def containsList (p : List Char) : List Char → Bool
  | [] => isPrefixOfB p []
  | c :: rest => isPrefixOfB p (c :: rest) || containsList p rest

/-- JS `s.includes(pat)` on strings. -/
def containsSub (s pat : String) : Bool :=
  containsList pat.data s.data

/-- JS `toLowerCase()` modelled character-wise (ASCII case folding, which
covers every pattern the classifier matches against). -/
def jsToLower (s : String) : String :=
  String.mk (s.data.map Char.toLower)

/-- `(err?.message || "").toString().toLowerCase()` as computed by both
`normalizeError` and `withRetry`. -/
def lowerMsg (e : RawErr) : String :=
  jsToLower (e.message.getD "")

/-- `Number(err?.status) || 0` as computed by both `normalizeError` and
`withRetry`: a missing (or non-numeric) status coerces to 0. -/
def statusOf (e : RawErr) : Int :=
  e.status.getD 0

/-- The `err?.message || "Something went wrong."` fallback used in the
`UNKNOWN` branch of `normalizeError` (the original-case message; a missing
or empty message falls back to the fixed text). -/
def fallbackMessage (e : RawErr) : String :=
  match e.message with
  | some m => if m = "" then "Something went wrong." else m
  | none => "Something went wrong."

/-- `normalizeError` of CreditSystem.tsx: the cascading classification of a
raw provider error into `(code, message)`. -/
def normalizeError (e : RawErr) : AuthErrorCode × String :=
  let msg := lowerMsg e
  let status := statusOf e
  if status = 429 ∨ containsSub msg "too many requests" = true then
    (.RATE_LIMITED, "Too many attempts. Try again later.")
  else if containsSub msg "invalid login credentials" = true ∨
      containsSub msg "invalid credentials" = true then
    (.INVALID_CREDENTIALS, "Invalid login credentials.")
  else if containsSub msg "email not confirmed" = true ∨
      containsSub msg "confirm your email" = true then
    (.EMAIL_NOT_CONFIRMED, "Please confirm your email to continue.")
  else if containsSub msg "already registered" = true ∨
      containsSub msg "user already exists" = true ∨
      containsSub msg "email already in use" = true then
    (.EMAIL_ALREADY_REGISTERED, "Email is already registered.")
  else if containsSub msg "reset token is invalid" = true ∨
      containsSub msg "token expired" = true ∨
      containsSub msg "invalid or expired" = true then
    (.LINK_EXPIRED_OR_INVALID, "This link is invalid or has expired.")
  else if containsSub msg "password should be at least" = true ∨
      containsSub msg "password too short" = true then
    (.WEAK_PASSWORD, "Password is too weak. Use at least 8 characters.")
  else if containsSub msg "network" = true ∨ status = 0 then
    (.NETWORK, "Network error. Check your connection and try again.")
  else
    (.UNKNOWN, fallbackMessage e)

/-- The transience test inside `withRetry`:
`status === 429 || status === 0 || msg.includes("network")`. -/
def isTransient (e : RawErr) : Bool :=
  statusOf e == 429 || statusOf e == 0 || containsSub (lowerMsg e) "network"

/-- Outcome of one invocation of an async operation: it either resolves
(`ok`) or rejects (`throw`). -/
inductive Attempt (α : Type)
  | throw (e : RawErr)
  | ok (v : α)
deriving DecidableEq

/-- The loop body of `withRetry`.  `fn i` is the outcome of the `i`-th call;
`fuel = times - i` is the number of loop iterations still allowed after the
current one.  Returns the overall outcome together with the total number of
calls made. -/
def retryLoop {α : Type} (fn : Nat → Attempt α) : Nat → Nat → Except RawErr α × Nat
  | 0, i =>
    match fn i with
    | .ok v => (.ok v, i + 1)
    | .throw e => (.error e, i + 1)
  | fuel + 1, i =>
    match fn i with
    | .ok v => (.ok v, i + 1)
    | .throw e =>
      if isTransient e then retryLoop fn fuel (i + 1) else (.error e, i + 1)

/-- `withRetry(fn, times)` of CreditSystem.tsx: up to `times + 1` total
calls; only transient failures (per `isTransient`) are retried; the last
failure is rethrown.  Returns the outcome and the number of calls made.
The source default is `times = 2` (3 total calls). -/
def withRetry {α : Type} (fn : Nat → Attempt α) (times : Nat) : Except RawErr α × Nat :=
  retryLoop fn times 0

/-- The value a provider call resolves to (`{ data, error }` in the source):
an optional error object and the optional `data?.user?.id`. -/
structure ProviderResp where
  error : Option RawErr
  userId : Option String
deriving DecidableEq

/-- `AuthResult` of CreditSystem.tsx: success with message and optional
user id, or a classified failure carrying the raw error. -/
inductive AuthResult
  | success (message : String) (userId : Option String)
  | failure (code : AuthErrorCode) (message : String) (raw : Option RawErr)
deriving DecidableEq

/-- The `user_profiles` row inserted by `signUpUser`. -/
structure ProfileRow where
  user_id : String
  email : String
  credits : Int
  credits_reset_at : Int
deriving DecidableEq

/-- `signUpUser` of CreditSystem.tsx.  `fn i` is the outcome of the `i`-th
provider `signUp` call, `now` the current time, `insertOk` whether the
profile insert succeeds.  Returns the `AuthResult`, the number of provider
calls made, and the profile row persisted by the insert (`none` when no
insert happened or the insert failed — a failed insert is only logged). -/
def signUpUser (email password : String) (fn : Nat → Attempt ProviderResp)
    (now : Int) (insertOk : Bool) : AuthResult × Nat × Option ProfileRow :=
  if !isValidEmail email then
    (.failure .INVALID_EMAIL "Enter a valid email address." none, 0, none)
  else if !isStrongPassword password then
    (.failure .WEAK_PASSWORD "Password must be at least 8 characters." none, 0, none)
  else
    match withRetry fn 2 with
    | (.error e, n) => (.failure (normalizeError e).1 (normalizeError e).2 (some e), n, none)
    | (.ok d, n) =>
      match d.error with
      | some e => (.failure (normalizeError e).1 (normalizeError e).2 (some e), n, none)
      | none =>
        let inserted : Option ProfileRow :=
          match d.userId with
          | some uid =>
            if insertOk then some (ProfileRow.mk uid email 5 (now + 86400000)) else none
          | none => none
        (.success "Account created. Check your email to confirm your account." d.userId,
          n, inserted)

/-- `signInUser` of CreditSystem.tsx.  `fn i` is the outcome of the `i`-th
provider `signInWithPassword` call.  Returns the `AuthResult` and the number
of provider calls made. -/
def signInUser (email _password : String) (fn : Nat → Attempt ProviderResp) :
    AuthResult × Nat :=
  if !isValidEmail email then
    (.failure .INVALID_EMAIL "Enter a valid email address." none, 0)
  else
    match withRetry fn 2 with
    | (.error e, n) => (.failure (normalizeError e).1 (normalizeError e).2 (some e), n)
    | (.ok d, n) =>
      match d.error with
      | some e => (.failure (normalizeError e).1 (normalizeError e).2 (some e), n)
      | none => (.success "Login successful." d.userId, n)

/-- The stored `user_profiles` row as selected by `fetchUserCredits`:
`credits` may be null/absent, `credits_reset_at` is a timestamp. -/
structure StoredProfile where
  credits : Option Int
  credits_reset_at : Int
deriving DecidableEq

/-- The React hook state written by `fetchUserCredits` (`setCredits` /
`setResetTime`): the values the caller observes. -/
structure AuthState where
  credits : Int
  resetTime : Option Int
deriving DecidableEq

/-- The `{ credits, credits_reset_at }` payload of the persistence update
issued on reset. -/
structure UpdatePayload where
  credits : Int
  credits_reset_at : Int
deriving DecidableEq

/-- JS `data.credits || 5`: null/absent — and any other falsy value, in
particular 0 — falls back to 5. -/
def jsOrDefault (c : Option Int) : Int :=
  match c with
  | none => 5
  | some v => if v = 0 then 5 else v

/-- `fetchUserCredits` of useAuth.ts.  `fetched` is the outcome of the
select (`throw` = the await rejected, `ok none` = no row, `ok (some p)` = a
stored row), `now` the observation time, `updateOk` whether the persistence
update on reset succeeds, `st` the prior hook state.  Returns the hook state
after the call and the update payload persisted by the store (`none` when no
successful write happened). -/
def fetchUserCredits (fetched : Attempt (Option StoredProfile)) (now : Int)
    (updateOk : Bool) (st : AuthState) : AuthState × Option UpdatePayload :=
  match fetched with
  | .throw _ => (AuthState.mk 5 st.resetTime, none)
  | .ok none => (st, none)
  | .ok (some p) =>
    if now ≥ p.credits_reset_at then
      let newResetTime := now + 86400000
      if updateOk then
        (AuthState.mk 5 (some newResetTime), some (UpdatePayload.mk 5 newResetTime))
      else (st, none)
    else
      (AuthState.mk (jsOrDefault p.credits) (some p.credits_reset_at), none)

/-- `updateResetTimer` of CreditSystem.tsx: the countdown string from the
current time and the reset time (both in ms). -/
def updateResetTimer (now reset : Int) : String :=
  let diff := reset - now
  if diff ≤ 0 then "Resetting..."
  else
    let hours := diff / 3600000
    let minutes := (diff % 3600000) / 60000
    toString hours ++ "h " ++ toString minutes ++ "m"

/-! ## Theorems -/

/-- C1: when `fetchUserCredits` reads a stored account at a time `now` at or
past its `credits_reset_at` and the persistence update succeeds, it persists
`credits = 5` and `credits_reset_at = now + 24h` (24 hours from the read
time, not from the original expiry) and returns exactly those new values, so
the caller never observes the expired account. -/
theorem fetchUserCredits_expired_resets (p : StoredProfile) (now : Int) (st : AuthState)
    (h : now ≥ p.credits_reset_at) :
    fetchUserCredits (.ok (some p)) now true st =
      (AuthState.mk 5 (some (now + 86400000)), some (UpdatePayload.mk 5 (now + 86400000))) := by
  simp [fetchUserCredits, h]

/-- Witness for C1: an account expired at time 100 read at time 100. -/
theorem fetchUserCredits_expired_resets_witness :
    fetchUserCredits (.ok (some (StoredProfile.mk (some 2) 100))) 100 true (AuthState.mk 0 none) =
      (AuthState.mk 5 (some (100 + 86400000)), some (UpdatePayload.mk 5 (100 + 86400000))) :=
  fetchUserCredits_expired_resets (StoredProfile.mk (some 2) 100) 100 (AuthState.mk 0 none)
    (by decide)

/-- C2 counterexample: a stored, non-null balance of 0 read before expiry is
returned as 5 (the source computes `data.credits || 5` and 0 is falsy), so
the returned balance does not equal the stored value even though the stored
field is neither null nor absent. -/
theorem fetchUserCredits_zero_balance_cex :
    (StoredProfile.mk (some 0) 10).credits = some 0 ∧
    (fetchUserCredits (.ok (some (StoredProfile.mk (some 0) 10))) 5 true
        (AuthState.mk 1 none)).1.credits = 5 ∧
    (5 : Int) ≠ 0 := by
  refine ⟨rfl, ?_, ?_⟩ <;> decide

/-- C2 (amended): on a non-expired read no mutation of the stored account
occurs and the stored reset time is returned unchanged; the returned balance
equals the stored balance except that a null/absent — or zero, the source's
`||` test treating any falsy value alike — stored balance is replaced by 5. -/
theorem fetchUserCredits_notExpired (p : StoredProfile) (now : Int) (u : Bool)
    (st : AuthState) (h : now < p.credits_reset_at) :
    (fetchUserCredits (.ok (some p)) now u st).2 = none ∧
    (fetchUserCredits (.ok (some p)) now u st).1.resetTime = some p.credits_reset_at ∧
    ((p.credits = none ∨ p.credits = some 0) →
      (fetchUserCredits (.ok (some p)) now u st).1.credits = 5) ∧
    (∀ v : Int, p.credits = some v → v ≠ 0 →
      (fetchUserCredits (.ok (some p)) now u st).1.credits = v) := by
  have hn : ¬ now ≥ p.credits_reset_at := not_le.mpr h
  have key : fetchUserCredits (.ok (some p)) now u st =
      (AuthState.mk (jsOrDefault p.credits) (some p.credits_reset_at), none) := by
    simp [fetchUserCredits, hn]
  rw [key]
  refine ⟨rfl, rfl, ?_, ?_⟩
  · rintro (hc | hc) <;> simp [jsOrDefault, hc]
  · intro v hv hv0
    simp [jsOrDefault, hv, hv0]

/-- Witness for C2 (amended): a non-expired account with stored balance 3 is
not written back. -/
theorem fetchUserCredits_notExpired_witness :
    (fetchUserCredits (.ok (some (StoredProfile.mk (some 3) 100))) 50 true
        (AuthState.mk 0 none)).2 = none :=
  (fetchUserCredits_notExpired (StoredProfile.mk (some 3) 100) 50 true (AuthState.mk 0 none)
    (by decide)).1

/-- C3 counterexample: an absent stored account (the select resolves with no
row and no exception) leaves the prior hook state untouched — the balance
stays 0 instead of the claimed degraded default 5. -/
theorem fetchUserCredits_absent_cex :
    (fetchUserCredits (.ok none) 0 true (AuthState.mk 0 none)).1.credits = 0 ∧
    (0 : Int) ≠ 5 :=
  ⟨rfl, by decide⟩

/-- C3 (amended): a fetch that throws is caught (never propagated) and
degrades to balance 5 with the previously displayed reset time left
unchanged and no persisted write; a fetch that resolves with no row performs
no state change at all (no default is applied). -/
theorem fetchUserCredits_degraded (e : RawErr) (now : Int) (u : Bool) (st : AuthState) :
    fetchUserCredits (.throw e) now u st = (AuthState.mk 5 st.resetTime, none) ∧
    fetchUserCredits (.ok none) now u st = (st, none) :=
  ⟨rfl, rfl⟩

/-- The call counter of `retryLoop` is bounded by `i + fuel + 1`. -/
theorem retryLoop_calls_le {α : Type} (fn : Nat → Attempt α) :
    ∀ fuel i : Nat, (retryLoop fn fuel i).2 ≤ i + fuel + 1 := by
  intro fuel
  induction fuel with
  | zero =>
    intro i
    cases hfn : fn i with
    | ok v => simp [retryLoop, hfn]
    | throw e => simp [retryLoop, hfn]
  | succ fuel ih =>
    intro i
    cases hfn : fn i with
    | ok v =>
      simp only [retryLoop, hfn]
      omega
    | throw e =>
      cases ht : isTransient e with
      | false =>
        simp only [retryLoop, hfn, ht, if_false, Bool.false_eq_true]
        omega
      | true =>
        have hih := ih (i + 1)
        simp only [retryLoop, hfn, ht, if_true]
        omega

/-- C4: with the default `times = 2` (3 total attempts), `withRetry` makes
at most 3 calls; an operation that always throws a transient failure
(status 429, status 0, or message containing "network") is called exactly
3 times and the last failure is propagated; an operation whose first throw
is non-transient is called exactly once and that failure is propagated. -/
theorem withRetry_default_policy {α : Type} :
    (∀ fn : Nat → Attempt α, (withRetry fn 2).2 ≤ 3) ∧
    (∀ (fn : Nat → Attempt α) (es : Nat → RawErr),
      (∀ j, fn j = .throw (es j)) → (∀ j, isTransient (es j) = true) →
      withRetry fn 2 = (.error (es 2), 3)) ∧
    (∀ (fn : Nat → Attempt α) (e : RawErr),
      fn 0 = .throw e → isTransient e = false →
      withRetry fn 2 = (.error e, 1)) := by
  refine ⟨?_, ?_, ?_⟩
  · intro fn
    have hb := retryLoop_calls_le fn 2 0
    simpa [withRetry] using hb
  · intro fn es hf ht
    simp [withRetry, retryLoop, hf 0, hf 1, hf 2, ht 0, ht 1, ht 2]
  · intro fn e hf ht
    simp [withRetry, retryLoop, hf, ht]

/-- Witness for C4: a permanent network failure is retried to 3 total calls;
an `INVALID_CREDENTIALS`-classified failure with status 400 fails fast after
1 call. -/
theorem withRetry_default_policy_witness :
    withRetry
        (fun _ => Attempt.throw (RawErr.mk (some "network down") none) : Nat → Attempt Unit) 2 =
      (.error (RawErr.mk (some "network down") none), 3) ∧
    withRetry
        (fun _ =>
          Attempt.throw (RawErr.mk (some "invalid credentials") (some 400)) :
          Nat → Attempt Unit) 2 =
      (.error (RawErr.mk (some "invalid credentials") (some 400)), 1) ∧
    (normalizeError (RawErr.mk (some "invalid credentials") (some 400))).1 =
      .INVALID_CREDENTIALS := by
  have ht : isTransient (RawErr.mk (some "network down") none) = true := by decide
  have hnt : isTransient (RawErr.mk (some "invalid credentials") (some 400)) = false := by
    decide
  exact ⟨withRetry_default_policy.2.1 _ (fun _ => RawErr.mk (some "network down") none)
      (fun _ => rfl) (fun _ => ht),
    withRetry_default_policy.2.2 _ _ rfl hnt,
    by decide⟩

/-- C5: `normalizeError` is a total, deterministic function of
`(message, status)` — equal inputs give equal outputs — and rule 1 takes
precedence over every later heuristic: any message containing
"too many requests" (in particular one also containing "network")
classifies as `RATE_LIMITED`, never `NETWORK`. -/
theorem normalizeError_deterministic_precedence :
    (∀ e₁ e₂ : RawErr, e₁.message = e₂.message → e₁.status = e₂.status →
      normalizeError e₁ = normalizeError e₂) ∧
    (∀ e : RawErr, containsSub (lowerMsg e) "too many requests" = true →
      (normalizeError e).1 = .RATE_LIMITED) := by
  constructor
  · intro e₁ e₂ hm hs
    cases e₁
    cases e₂
    cases hm
    cases hs
    rfl
  · intro e h
    simp [normalizeError, h]

/-- Witness for C5: a message containing both "network" and
"too many requests" classifies as `RATE_LIMITED`. -/
theorem normalizeError_deterministic_precedence_witness :
    (normalizeError (RawErr.mk (some "Network error: too many requests") none)).1 =
      .RATE_LIMITED ∧
    containsSub (lowerMsg (RawErr.mk (some "Network error: too many requests") none))
      "network" = true :=
  ⟨normalizeError_deterministic_precedence.2 _ (by decide), by decide⟩

/-- C6: `signUpUser` fails fast on local validation — an email not matching
the `local@domain.tld` regex yields `INVALID_EMAIL`, and a valid email with
a password shorter than 8 characters yields `WEAK_PASSWORD` — with zero
provider calls in both cases. -/
theorem signUpUser_local_validation (email password : String)
    (fn : Nat → Attempt ProviderResp) (now : Int) (insertOk : Bool) :
    (isValidEmail email = false →
      signUpUser email password fn now insertOk =
        (.failure .INVALID_EMAIL "Enter a valid email address." none, 0, none)) ∧
    (isValidEmail email = true → password.length < 8 →
      signUpUser email password fn now insertOk =
        (.failure .WEAK_PASSWORD "Password must be at least 8 characters." none, 0, none)) := by
  constructor
  · intro h
    simp [signUpUser, h]
  · intro h hp
    have hs : isStrongPassword password = false := by
      simp only [isStrongPassword, decide_eq_false_iff_not]
      omega
    simp [signUpUser, h, hs]

/-- Witness for C6: `"bad"` is rejected as an email; `"short"` is rejected
as a password for a valid email, both with zero provider calls. -/
theorem signUpUser_local_validation_witness :
    signUpUser "bad" "longenough" (fun _ => Attempt.ok (ProviderResp.mk none none)) 0 true =
      (.failure .INVALID_EMAIL "Enter a valid email address." none, 0, none) ∧
    signUpUser "a@b.co" "short" (fun _ => Attempt.ok (ProviderResp.mk none none)) 0 true =
      (.failure .WEAK_PASSWORD "Password must be at least 8 characters." none, 0, none) :=
  ⟨(signUpUser_local_validation "bad" "longenough" _ 0 true).1 (by decide),
   (signUpUser_local_validation "a@b.co" "short" _ 0 true).2 (by decide) (by decide)⟩

/-- C7: when the provider resolves without error on the first call, sign-up
reports success whether or not the profile insert succeeds; when the insert
succeeds, the provisioned row has credits 5 and reset time `now + 24h`. -/
theorem signUpUser_provider_success (email password : String)
    (fn : Nat → Attempt ProviderResp) (now : Int) (uid : String)
    (hv : isValidEmail email = true) (hp : 8 ≤ password.length)
    (hfn : fn 0 = .ok (ProviderResp.mk none (some uid))) :
    (∀ insertOk, (signUpUser email password fn now insertOk).1 =
      .success "Account created. Check your email to confirm your account." (some uid)) ∧
    (signUpUser email password fn now true).2.2 =
      some (ProfileRow.mk uid email 5 (now + 86400000)) ∧
    (signUpUser email password fn now false).2.2 = none := by
  have hs : isStrongPassword password = true := by
    simp only [isStrongPassword, decide_eq_true_eq]
    omega
  have hw : withRetry fn 2 = (.ok (ProviderResp.mk none (some uid)), 1) := by
    simp [withRetry, retryLoop, hfn]
  refine ⟨?_, ?_, ?_⟩
  · intro insertOk
    cases insertOk <;> simp [signUpUser, hv, hs, hw]
  · simp [signUpUser, hv, hs, hw]
  · simp [signUpUser, hv, hs, hw]

/-- Witness for C7: a successful provider sign-up provisions the profile row
when the insert succeeds and still succeeds when it fails. -/
theorem signUpUser_provider_success_witness :
    (signUpUser "new@x.com" "longenough"
        (fun _ => Attempt.ok (ProviderResp.mk none (some "u1"))) 0 true).2.2 =
      some (ProfileRow.mk "u1" "new@x.com" 5 (0 + 86400000)) ∧
    (signUpUser "new@x.com" "longenough"
        (fun _ => Attempt.ok (ProviderResp.mk none (some "u1"))) 0 false).1 =
      .success "Account created. Check your email to confirm your account." (some "u1") :=
  ⟨(signUpUser_provider_success "new@x.com" "longenough" _ 0 "u1"
      (by decide) (by decide) rfl).2.1,
   (signUpUser_provider_success "new@x.com" "longenough" _ 0 "u1"
      (by decide) (by decide) rfl).1 false⟩

/-- C8: the countdown shows the transitional "Resetting..." label when
`resetAt - now ≤ 0`, and otherwise whole hours and whole minutes of the
remaining time, both obtained by flooring (never rounding up):
`h*3600000 + m*60000 ≤ remaining < h*3600000 + (m+1)*60000` with
`0 ≤ m < 60`. -/
theorem updateResetTimer_spec (now reset : Int) :
    (reset - now ≤ 0 → updateResetTimer now reset = "Resetting...") ∧
    (0 < reset - now → ∃ h m : Int,
      updateResetTimer now reset = toString h ++ "h " ++ toString m ++ "m" ∧
      0 ≤ h ∧ 0 ≤ m ∧ m < 60 ∧
      h * 3600000 + m * 60000 ≤ reset - now ∧
      reset - now < h * 3600000 + (m + 1) * 60000) := by
  constructor
  · intro h
    simp [updateResetTimer, h]
  · intro h
    refine ⟨(reset - now) / 3600000, ((reset - now) % 3600000) / 60000,
      ?_, ?_, ?_, ?_, ?_, ?_⟩
    · simp only [updateResetTimer]
      rw [if_neg (by omega : ¬ reset - now ≤ 0)]
    · omega
    · omega
    · omega
    · omega
    · omega

/-- Witness for C8: 3700000 ms remaining displays as "1h 1m"; zero remaining
displays the transitional label. -/
theorem updateResetTimer_spec_witness :
    (∃ h m : Int,
      updateResetTimer 0 3700000 = toString h ++ "h " ++ toString m ++ "m" ∧
      0 ≤ h ∧ 0 ≤ m ∧ m < 60 ∧
      h * 3600000 + m * 60000 ≤ 3700000 - 0 ∧
      3700000 - 0 < h * 3600000 + (m + 1) * 60000) ∧
    updateResetTimer 5 5 = "Resetting..." :=
  ⟨(updateResetTimer_spec 0 3700000).2 (by decide),
   (updateResetTimer_spec 5 5).1 (by decide)⟩

/-- C9: a provider call that resolves normally carrying an error value in
its result is not retried: exactly one provider call is made by `signUpUser`
and `signInUser` and the classified failure is returned, regardless of the
error's kind (even `RATE_LIMITED` or `NETWORK`). -/
theorem provider_value_error_not_retried (email password : String)
    (fn : Nat → Attempt ProviderResp) (d : ProviderResp) (e : RawErr)
    (now : Int) (insertOk : Bool)
    (hv : isValidEmail email = true) (hp : 8 ≤ password.length)
    (hfn : fn 0 = .ok d) (he : d.error = some e) :
    signUpUser email password fn now insertOk =
      (.failure (normalizeError e).1 (normalizeError e).2 (some e), 1, none) ∧
    signInUser email password fn =
      (.failure (normalizeError e).1 (normalizeError e).2 (some e), 1) := by
  have hs : isStrongPassword password = true := by
    simp only [isStrongPassword, decide_eq_true_eq]
    omega
  have hw : withRetry fn 2 = (.ok d, 1) := by
    simp [withRetry, retryLoop, hfn]
  constructor
  · simp [signUpUser, hv, hs, hw, he]
  · simp [signInUser, hv, hw, he]

/-- Witness for C9: a rate-limited error value (status 429) returned in the
provider's resolved result causes exactly one call and no retry. -/
theorem provider_value_error_not_retried_witness :
    signUpUser "new@x.com" "longenough"
        (fun _ =>
          Attempt.ok (ProviderResp.mk (some (RawErr.mk (some "too many requests") (some 429)))
            none)) 0 true =
      (.failure (normalizeError (RawErr.mk (some "too many requests") (some 429))).1
        (normalizeError (RawErr.mk (some "too many requests") (some 429))).2
        (some (RawErr.mk (some "too many requests") (some 429))), 1, none) ∧
    signInUser "new@x.com" "longenough"
        (fun _ =>
          Attempt.ok (ProviderResp.mk (some (RawErr.mk (some "too many requests") (some 429)))
            none)) =
      (.failure (normalizeError (RawErr.mk (some "too many requests") (some 429))).1
        (normalizeError (RawErr.mk (some "too many requests") (some 429))).2
        (some (RawErr.mk (some "too many requests") (some 429))), 1) :=
  provider_value_error_not_retried "new@x.com" "longenough" _ _ _ 0 true
    (by decide) (by decide) rfl rfl

/-- C10: `normalizeError` coerces a missing (or non-numeric) status to 0, so
an error whose message matches none of the first six message heuristics and
that carries no numeric status classifies as `NETWORK` and is transient for
the retry policy; `UNKNOWN` arises only when the coerced status is a nonzero
number other than 429 and the message matches no heuristic (in particular it
does not contain "network"). -/
theorem normalizeError_status_coercion (e : RawErr) :
    (e.status = none →
      containsSub (lowerMsg e) "too many requests" = false →
      containsSub (lowerMsg e) "invalid login credentials" = false →
      containsSub (lowerMsg e) "invalid credentials" = false →
      containsSub (lowerMsg e) "email not confirmed" = false →
      containsSub (lowerMsg e) "confirm your email" = false →
      containsSub (lowerMsg e) "already registered" = false →
      containsSub (lowerMsg e) "user already exists" = false →
      containsSub (lowerMsg e) "email already in use" = false →
      containsSub (lowerMsg e) "reset token is invalid" = false →
      containsSub (lowerMsg e) "token expired" = false →
      containsSub (lowerMsg e) "invalid or expired" = false →
      containsSub (lowerMsg e) "password should be at least" = false →
      containsSub (lowerMsg e) "password too short" = false →
      (normalizeError e).1 = .NETWORK ∧ isTransient e = true) ∧
    ((normalizeError e).1 = .UNKNOWN →
      statusOf e ≠ 0 ∧ statusOf e ≠ 429 ∧
      containsSub (lowerMsg e) "network" = false) := by
  constructor
  · intro hs h1 h2 h3 h4 h5 h6 h7 h8 h9 h10 h11 h12 h13
    have h0 : statusOf e = 0 := by simp [statusOf, hs]
    constructor
    · simp [normalizeError, h0, h1, h2, h3, h4, h5, h6, h7, h8, h9, h10, h11, h12, h13]
    · simp [isTransient, h0]
  · intro h
    simp only [normalizeError] at h
    split_ifs at h with c1 c2 c3 c4 c5 c6 c7
    any_goals simp at h
    rcases not_or.mp c1 with ⟨c1a, _⟩
    rcases not_or.mp c7 with ⟨c7a, c7b⟩
    exact ⟨c7b, c1a, by simpa using c7a⟩

/-- Witness for C10: a message matching no heuristic with no status is
`NETWORK` and transient; the same message with status 500 is `UNKNOWN`. -/
theorem normalizeError_status_coercion_witness :
    ((normalizeError (RawErr.mk (some "boom") none)).1 = .NETWORK ∧
      isTransient (RawErr.mk (some "boom") none) = true) ∧
    (statusOf (RawErr.mk (some "boom") (some 500)) ≠ 0 ∧
      statusOf (RawErr.mk (some "boom") (some 500)) ≠ 429 ∧
      containsSub (lowerMsg (RawErr.mk (some "boom") (some 500))) "network" = false) :=
  ⟨(normalizeError_status_coercion _).1 rfl (by decide) (by decide) (by decide) (by decide)
      (by decide) (by decide) (by decide) (by decide) (by decide) (by decide) (by decide)
      (by decide) (by decide),
   (normalizeError_status_coercion _).2 (by decide)⟩

end FresherHub
